import Mathlib

/-!
Shallow embedding of the event-dispatch core of the native-windows-gui
repository (`src/native-windows-gui/src/win32/window.rs`), together with
theorems checking the specification's claims about it.

Machine integers of the source (`u16`, `u32`, `usize` window handles and
message parameters) are modelled as `Nat`, with an explicit `% 2^32`
wherever the source performs a `u32` cast or a `u32` increment can wrap.
Native OS calls performed during dispatch (`GetClassNameW`, `SendMessageW`
with `STM_GETIMAGE`, `GetMenuItemID`, reads through `NMHDR` pointers) are
modelled as an explicit environment of functions, so that dispatch is a
pure function of the message and the environment.
-/

namespace NwgWindow

/-- Modelled from the spec: `ControlHandle` is declared in
`crate::controls`, outside the provided sources.  Per the spec's Handle
model it is a closed variant over a raw window handle, timer, notice,
menu item, system tray, and an empty/unbound state; the raw ids are
modelled as `Nat`. -/
inductive ControlHandle where
  | NoHandle : ControlHandle
  | Hwnd : Nat → ControlHandle
  | Timer : Nat → Nat → ControlHandle
  | Notice : Nat → Nat → ControlHandle
  | MenuItem : Nat → Nat → ControlHandle
  | SystemTray : Nat → ControlHandle
deriving DecidableEq, Repr

/-- Modelled from the spec: `MousePressEvent` is declared in
`crate::events`, outside the provided sources; its four variants are
exactly the ones dispatched in `process_events`. -/
inductive MousePressEvent where
  | MousePressLeftUp | MousePressLeftDown
  | MousePressRightUp | MousePressRightDown
deriving DecidableEq, Repr

/-- Modelled from the spec: `Event` is declared in `crate::events`,
outside the provided sources.  The variants are exactly the ones
produced by `process_events` and the classifier functions of
`window.rs`. -/
inductive Event where
  | OnMenuItemClick
  | OnButtonClick | OnButtonDoubleClick
  | OnTextInput
  | OnComboBoxClosed | OnComboBoxDropdown | OnComboxBoxSelection
  | OnDatePickerClosed | OnDatePickerDropdown | OnDatePickerChanged
  | TabsContainerChanged | TabsContainerChanging
  | TrackBarUpdated
  | OnImageFrameClick | OnImageFrameDoubleClick
  | OnLabelClick | OnLabelDoubleClick
  | OnListBoxSelect | OnListBoxDoubleClick
  | OnContextMenu
  | OnTrayNotificationShow | OnTrayNotificationHide
  | OnTrayNotificationTimeout | OnTrayNotificationUserClose
  | MousePress : MousePressEvent → Event
  | OnMouseMove
  | OnTimerTick
  | OnResize | OnMove
  | OnHorizontalScroll | OnVerticalScroll
  | OnPaint
  | OnNotice
  | OnInit
  | OnWindowClose
  | OnTooltipText
  | Unknown
deriving DecidableEq, Repr

/-- Modelled from the spec: `EventData` is declared in `crate::events`,
outside the provided sources.  The tooltip payload wraps (not copies) the
native notification buffer; we model the wrapped buffer by the `LPARAM`
pointer value it was read from. -/
inductive EventData where
  | NoData : EventData
  | OnTooltipText : Nat → EventData
deriving DecidableEq, Repr

/-- `const NO_DATA: EventData = EventData::NoData;` -/
def NO_DATA : EventData := EventData.NoData

/-- Modelled from the spec: `SystemError` is declared outside the
provided sources; the spec lists these construction-error variants. -/
inductive SystemError where
  | GetModuleHandleFailed
  | WindowCreationFailed
  | SystemClassCreationFailed
  | ControlWithoutParent
deriving DecidableEq, Repr

/-! ### Native message and notification constants (winapi values) -/

def WM_CLOSE : Nat := 0x0010
def WM_COMMAND : Nat := 0x0111
def WM_MENUCOMMAND : Nat := 0x0126
def WM_TIMER : Nat := 0x0113
def WM_NOTIFY : Nat := 0x004E
def WM_HSCROLL : Nat := 0x0114
def WM_VSCROLL : Nat := 0x0115
def WM_LBUTTONDOWN : Nat := 0x0201
def WM_LBUTTONUP : Nat := 0x0202
def WM_RBUTTONDOWN : Nat := 0x0204
def WM_RBUTTONUP : Nat := 0x0205
def WM_SIZE : Nat := 0x0005
def WM_MOVE : Nat := 0x0003
def WM_PAINT : Nat := 0x000F
def WM_MOUSEMOVE : Nat := 0x0200
def WM_CONTEXTMENU : Nat := 0x007B

def NIN_BALLOONSHOW : Nat := 0x0402
def NIN_BALLOONHIDE : Nat := 0x0403
def NIN_BALLOONTIMEOUT : Nat := 0x0404
def NIN_BALLOONUSERCLICK : Nat := 0x0405

/-- `TTN_GETDISPINFOW = TTN_FIRST - 10 = -530` as a `u32` notification code. -/
def TTN_GETDISPINFOW : Nat := 2 ^ 32 - 530

def BN_CLICKED : Nat := 0
def BN_DBLCLK : Nat := 5
def EN_CHANGE : Nat := 0x0300
def CBN_SELCHANGE : Nat := 1
def CBN_DROPDOWN : Nat := 7
def CBN_CLOSEUP : Nat := 8
def STN_CLICKED : Nat := 0
def STN_DBLCLK : Nat := 1
def LBN_SELCHANGE : Nat := 1
def LBN_DBLCLK : Nat := 2

/-- `DTN_FIRST2 = -753` as `u32`; `DTN_CLOSEUP = DTN_FIRST2`. -/
def DTN_CLOSEUP : Nat := 2 ^ 32 - 753
/-- `DTN_DROPDOWN = DTN_FIRST2 - 1`. -/
def DTN_DROPDOWN : Nat := 2 ^ 32 - 754
/-- `DTN_DATETIMECHANGE = DTN_FIRST2 - 6`. -/
def DTN_DATETIMECHANGE : Nat := 2 ^ 32 - 759
/-- `TCN_SELCHANGE = TCN_FIRST - 1 = -551` as `u32`. -/
def TCN_SELCHANGE : Nat := 2 ^ 32 - 551
/-- `TCN_SELCHANGING = TCN_FIRST - 2 = -552` as `u32`. -/
def TCN_SELCHANGING : Nat := 2 ^ 32 - 552
/-- `NM_RELEASEDCAPTURE = NM_FIRST - 16 = -16` as `u32`. -/
def NM_RELEASEDCAPTURE : Nat := 2 ^ 32 - 16

/-- `ERROR_CLASS_ALREADY_EXISTS` (winerror). -/
def ERROR_CLASS_ALREADY_EXISTS : Nat := 1410

/-- Modelled from the spec: the toolkit-private message codes
`NOTICE_MESSAGE`, `NWG_INIT` and `NWG_TRAY` are defined in
`window_helper.rs`, outside the provided sources.  Their exact values are
unknown; they live in the application-private range (`WM_APP = 0x8000`
and above) and are distinct from every native code above and from each
other, which is all the dispatch logic depends on. -/
def NOTICE_MESSAGE : Nat := 0x8000 + 1

/-- Modelled from the spec: see `NOTICE_MESSAGE`. -/
def NWG_INIT : Nat := 0x8000 + 2

/-- Modelled from the spec: see `NOTICE_MESSAGE`. -/
def NWG_TRAY : Nat := 0x8000 + 3

/-- `HIWORD(w as u32) as u16`: the high 16 bits of the low 32 bits. -/
def HIWORD (w : Nat) : Nat := w % 2 ^ 32 / 2 ^ 16

/-- `LOWORD(l as u32) as u32`: the low 16 bits. -/
def LOWORD (l : Nat) : Nat := l % 2 ^ 16

/-! ### Classifier functions (`window.rs` lines 380-464) -/

/-- `fn button_commands(m: u16) -> Event` -/
def button_commands (m : Nat) : Event :=
  if m = BN_CLICKED then Event.OnButtonClick
  else if m = BN_DBLCLK then Event.OnButtonDoubleClick
  else Event.Unknown

/-- `fn edit_commands(m: u16) -> Event` -/
def edit_commands (m : Nat) : Event :=
  if m = EN_CHANGE then Event.OnTextInput
  else Event.Unknown

/-- `fn combo_commands(m: u16) -> Event` -/
def combo_commands (m : Nat) : Event :=
  if m = CBN_CLOSEUP then Event.OnComboBoxClosed
  else if m = CBN_DROPDOWN then Event.OnComboBoxDropdown
  else if m = CBN_SELCHANGE then Event.OnComboxBoxSelection
  else Event.Unknown

/-- `fn datetimepick_commands(m: u32) -> Event` -/
def datetimepick_commands (m : Nat) : Event :=
  if m = DTN_CLOSEUP then Event.OnDatePickerClosed
  else if m = DTN_DROPDOWN then Event.OnDatePickerDropdown
  else if m = DTN_DATETIMECHANGE then Event.OnDatePickerChanged
  else Event.Unknown

/-- `fn tabs_commands(m: u32) -> Event` -/
def tabs_commands (m : Nat) : Event :=
  if m = TCN_SELCHANGE then Event.TabsContainerChanged
  else if m = TCN_SELCHANGING then Event.TabsContainerChanging
  else Event.Unknown

/-- `fn track_commands(m: u32) -> Event` -/
def track_commands (m : Nat) : Event :=
  if m = NM_RELEASEDCAPTURE then Event.TrackBarUpdated
  else Event.Unknown

/-- `fn listbox_commands(m: u16) -> Event` -/
def listbox_commands (m : Nat) : Event :=
  if m = LBN_SELCHANGE then Event.OnListBoxSelect
  else if m = LBN_DBLCLK then Event.OnListBoxDoubleClick
  else Event.Unknown

/-- The environment of native OS queries `process_events` performs during
dispatch: `GetClassNameW` on a window, `SendMessageW(STM_GETIMAGE,
IMAGE_BITMAP)` compared against 0, `GetMenuItemID`, and the fields read
through the `NMHDR` pointer carried in `LPARAM`. -/
structure Env where
  className : Nat → String
  hasBitmap : Nat → Bool
  menuItemId : Nat → Nat → Nat
  nmhdrCode : Nat → Nat
  nmhdrFrom : Nat → Nat
  nmhdrIdFrom : Nat → Nat

/-- `unsafe fn static_commands(handle: HWND, m: u16) -> Event`: queries
the control's current bitmap content (`SendMessageW(handle, STM_GETIMAGE,
IMAGE_BITMAP, 0) != 0`) at classification time. -/
def static_commands (env : Env) (handle : Nat) (m : Nat) : Event :=
  let has_image := env.hasBitmap handle
  if has_image then
    if m = STN_CLICKED then Event.OnImageFrameClick
    else if m = STN_DBLCLK then Event.OnImageFrameDoubleClick
    else Event.Unknown
  else
    if m = STN_CLICKED then Event.OnLabelClick
    else if m = STN_DBLCLK then Event.OnLabelDoubleClick
    else Event.Unknown

/-- The observable outcome of one run of the subtree subclass procedure
`process_events` on one message: the sequence of callback invocations it
performs (in order, with their arguments), and the number of times it
forwards the message to `DefSubclassProc`. -/
structure SubclassDispatch where
  calls : List (Event × EventData × ControlHandle)
  forwardedCalls : Nat
deriving DecidableEq, Repr

/-- `unsafe fn handle_tooltip_callback(...)`: wraps the `NMTTDISPINFOW`
buffer (modelled by its pointer value `l`) in the tooltip payload and
invokes the callback once. -/
def handle_tooltip_callback (env : Env) (l : Nat) :
    List (Event × EventData × ControlHandle) :=
  [(Event.OnTooltipText, EventData.OnTooltipText l,
    ControlHandle.Hwnd (env.nmhdrIdFrom l))]

/-- `unsafe fn handle_default_notify_callback(...)`: reads `hwndFrom` and
`code` from the `NMHDR`, queries the class name of the originating
window, and dispatches through the per-class notify classifiers. -/
def handle_default_notify_callback (env : Env) (l : Nat) :
    List (Event × EventData × ControlHandle) :=
  let hwndFrom := env.nmhdrFrom l
  let handle := ControlHandle.Hwnd hwndFrom
  let class_name := env.className hwndFrom
  if class_name = "SysDateTimePick32" then
    [(datetimepick_commands (env.nmhdrCode l), NO_DATA, handle)]
  else if class_name = "SysTabControl32" then
    [(tabs_commands (env.nmhdrCode l), NO_DATA, handle)]
  else if class_name = "msctls_trackbar32" then
    [(track_commands (env.nmhdrCode l), NO_DATA, handle)]
  else []

/-- The callback invocations performed by one run of `process_events`
(`window.rs` lines 258-361), arm by arm in source order.  The `match msg`
of the source is rendered as an ordered `if`-chain over the same
constants; arms whose body performs no callback invocation contribute
`[]`. -/
def subtree_calls (env : Env) (hwnd msg w l : Nat) :
    List (Event × EventData × ControlHandle) :=
  let base_handle := ControlHandle.Hwnd hwnd
  if msg = WM_NOTIFY then
    let code := env.nmhdrCode l
    if code = TTN_GETDISPINFOW then handle_tooltip_callback env l
    else handle_default_notify_callback env l
  else if msg = WM_MENUCOMMAND then
    let item_id := env.menuItemId l w
    [(Event.OnMenuItemClick, NO_DATA, ControlHandle.MenuItem l item_id)]
  else if msg = WM_COMMAND then
    let child_handle := l
    let message := HIWORD w
    let handle := ControlHandle.Hwnd child_handle
    let class_name := env.className child_handle
    if class_name = "Button" then [(button_commands message, NO_DATA, handle)]
    else if class_name = "Edit" then [(edit_commands message, NO_DATA, handle)]
    else if class_name = "ComboBox" then [(combo_commands message, NO_DATA, handle)]
    else if class_name = "Static" then
      [(static_commands env child_handle message, NO_DATA, handle)]
    else if class_name = "ListBox" then [(listbox_commands message, NO_DATA, handle)]
    else []
  else if msg = WM_CONTEXTMENU then
    [(Event.OnContextMenu, NO_DATA, ControlHandle.Hwnd w)]
  else if msg = NWG_TRAY then
    let m := LOWORD l
    let handle := ControlHandle.SystemTray hwnd
    if m = NIN_BALLOONSHOW then [(Event.OnTrayNotificationShow, NO_DATA, handle)]
    else if m = NIN_BALLOONHIDE then [(Event.OnTrayNotificationHide, NO_DATA, handle)]
    else if m = NIN_BALLOONTIMEOUT then [(Event.OnTrayNotificationTimeout, NO_DATA, handle)]
    else if m = NIN_BALLOONUSERCLICK then [(Event.OnTrayNotificationUserClose, NO_DATA, handle)]
    else if m = WM_LBUTTONUP then
      [(Event.MousePress MousePressEvent.MousePressLeftUp, NO_DATA, handle)]
    else if m = WM_LBUTTONDOWN then
      [(Event.MousePress MousePressEvent.MousePressLeftDown, NO_DATA, handle)]
    else if m = WM_RBUTTONUP then
      [(Event.MousePress MousePressEvent.MousePressRightUp, NO_DATA, handle),
       (Event.OnContextMenu, NO_DATA, handle)]
    else if m = WM_RBUTTONDOWN then
      [(Event.MousePress MousePressEvent.MousePressRightDown, NO_DATA, handle)]
    else if m = WM_MOUSEMOVE then [(Event.OnMouseMove, NO_DATA, handle)]
    else []
  else if msg = WM_TIMER then
    [(Event.OnTimerTick, NO_DATA, ControlHandle.Timer hwnd (w % 2 ^ 32))]
  else if msg = WM_SIZE then [(Event.OnResize, NO_DATA, base_handle)]
  else if msg = WM_MOVE then [(Event.OnMove, NO_DATA, base_handle)]
  else if msg = WM_HSCROLL then
    [(Event.OnHorizontalScroll, NO_DATA, ControlHandle.Hwnd l)]
  else if msg = WM_VSCROLL then
    [(Event.OnVerticalScroll, NO_DATA, ControlHandle.Hwnd l)]
  else if msg = WM_MOUSEMOVE then [(Event.OnMouseMove, NO_DATA, base_handle)]
  else if msg = WM_LBUTTONUP then
    [(Event.MousePress MousePressEvent.MousePressLeftUp, NO_DATA, base_handle)]
  else if msg = WM_LBUTTONDOWN then
    [(Event.MousePress MousePressEvent.MousePressLeftDown, NO_DATA, base_handle)]
  else if msg = WM_RBUTTONUP then
    [(Event.MousePress MousePressEvent.MousePressRightUp, NO_DATA, base_handle)]
  else if msg = WM_RBUTTONDOWN then
    [(Event.MousePress MousePressEvent.MousePressRightDown, NO_DATA, base_handle)]
  else if msg = WM_PAINT then [(Event.OnPaint, NO_DATA, base_handle)]
  else if msg = NOTICE_MESSAGE then
    [(Event.OnNotice, NO_DATA, ControlHandle.Notice hwnd (w % 2 ^ 32))]
  else if msg = NWG_INIT then [(Event.OnInit, NO_DATA, base_handle)]
  else if msg = WM_CLOSE then [(Event.OnWindowClose, NO_DATA, base_handle)]
  else []

/-- `unsafe extern "system" fn process_events(...)`: performs the
callback invocations of the matched arm, then unconditionally calls
`DefSubclassProc(hwnd, msg, w, l)` exactly once and returns its result. -/
def process_events (env : Env) (hwnd msg w l : Nat) : SubclassDispatch :=
  { calls := subtree_calls env hwnd msg w l, forwardedCalls := 1 }

/-- The observable outcome of one run of the raw subclass procedure
`process_raw_events`: the callback invocations (with their arguments),
whether `DefSubclassProc` ran, and the `LRESULT` returned to the native
dispatcher. -/
structure RawDispatch where
  calls : List (Nat × Nat × Nat × Nat)
  ranDefault : Bool
  result : Int
deriving DecidableEq, Repr

/-- `unsafe extern "system" fn process_raw_events(...)` (`window.rs`
lines 367-378): invokes the boxed callback once with
`(hwnd, msg, w, l)`; if it returns `Some(r)` that `r` is returned and
`DefSubclassProc` is skipped, otherwise `DefSubclassProc`'s result is
returned.  `defSubclassProc` models the native default handler's
result. -/
def process_raw_events (cb : Nat → Nat → Nat → Nat → Option Int)
    (defSubclassProc : Nat → Nat → Nat → Nat → Int)
    (hwnd msg w l : Nat) : RawDispatch :=
  match cb hwnd msg w l with
  | some r => { calls := [(hwnd, msg, w, l)], ranDefault := false, result := r }
  | none =>
    { calls := [(hwnd, msg, w, l)], ranDefault := true,
      result := defSubclassProc hwnd msg w l }

/-- A raw hook as installed by `bind_raw_event_handler`: the subclass is
attached to the window `hwnd` under subclass id `id`, with the boxed
callback stored as the subclass data. -/
structure RawHook (α : Type) where
  hwnd : Nat
  id : Nat
  callback : α
deriving Repr

/-- `pub fn bind_raw_event_handler<F>(handle, id, f)` (`window.rs` lines
96-110): matches only `ControlHandle::Hwnd(v)`, installing the subclass
there; every other handle kind panics, modelled by `none`. -/
def bind_raw_event_handler {α : Type} (handle : ControlHandle) (id : Nat)
    (f : α) : Option (RawHook α) :=
  match handle with
  | ControlHandle.Hwnd v => some { hwnd := v, id := id, callback := f }
  | _ => none

/-- The reference-counting state of one subtree installation: `rc` is the
strong count of the shared `Rc` holding the callback, `hooks` the windows
carrying an installed subclass whose data is a raw pointer into that
`Rc`. -/
structure HookState where
  rc : Nat
  hooks : List Nat
deriving DecidableEq, Repr

/-- `unsafe extern "system" fn iter_children_window` (`window.rs` lines
63-76), per enumerated child: `Rc::from_raw` rebuilds the `Rc` (count
unchanged), `clone` increments the count, `Rc::into_raw` leaks the clone
into the child's subclass data, and `mem::forget` prevents the rebuilt
`Rc` from decrementing — net effect: count `+ 1`, one more hook. -/
def iter_children_window (st : HookState) (h : Nat) : HookState :=
  { rc := st.rc + 1, hooks := st.hooks ++ [h] }

/-- `pub fn bind_event_handler<F>(handle, f)` (`window.rs` lines 54-90):
`Rc::new(f)` starts the count at 1; `EnumChildWindows` runs
`iter_children_window` once per (recursively enumerated) child; the
original `Rc`, already turned raw by `Rc::into_raw`, becomes the root
window's subclass data. -/
def bind_event_handler (hwnd : Nat) (children : List Nat) : HookState :=
  let st0 : HookState := { rc := 1, hooks := [] }
  let st1 := children.foldl iter_children_window st0
  { rc := st1.rc, hooks := st1.hooks ++ [hwnd] }

/-- Modelled from the spec: destroying a hooked window.  The native side
removes the window and its subclass, but no code in the provided sources
ever releases the raw-pointer reference stored in the subclass data
(`process_events` pairs every `Rc::from_raw` with `mem::forget`, and
`window.rs` contains no `RemoveWindowSubclass` or drop of the `Rc`), so
the strong count is unchanged. -/
def destroy_window (st : HookState) (h : Nat) : HookState :=
  { rc := st.rc, hooks := st.hooks.erase h }

/-- `static mut NOTICE_ID: u32 = 1;` / `static mut TIMER_ID: u32 = 1;` -/
def ID_INIT : Nat := 1

/-- `pub fn build_notice(parent: HWND) -> ControlHandle` (`window.rs`
lines 28-35): returns `Notice(parent, id)` for the current counter value
and increments the counter (a `u32`, so modulo `2^32`).  The state is
passed explicitly: `(handle, new counter)`. -/
def build_notice (notice_id : Nat) (parent : Nat) : ControlHandle × Nat :=
  (ControlHandle.Notice parent notice_id, (notice_id + 1) % 2 ^ 32)

/-- `pub unsafe fn build_timer(parent, interval, stopped)` (`window.rs`
lines 37-48): same counter discipline as `build_notice`; the `SetTimer`
native call (performed when `stopped` is false) does not affect the
counter or the returned handle. -/
def build_timer (timer_id : Nat) (parent : Nat) (_interval : Nat)
    (_stopped : Bool) : ControlHandle × Nat :=
  (ControlHandle.Timer parent timer_id, (timer_id + 1) % 2 ^ 32)

/-- The notice-counter value before allocation number `k` (counting from
0) in a process run that starts at `ID_INIT` and performs only
allocations; this is also the id carried by the handle that allocation
returns. -/
def noticeIdAt (k : Nat) : Nat :=
  Nat.iterate (fun s => (build_notice s 0).2) k ID_INIT

/-- The timer-counter analogue of `noticeIdAt`. -/
def timerIdAt (k : Nat) : Nat :=
  Nat.iterate (fun s => (build_timer s 0 0 true).2) k ID_INIT

/-- `pub(crate) unsafe fn build_sysclass(...)` (`window.rs` lines
173-211): the native registration outcome is modelled by the returned
atom (`class_token`, 0 on failure) and the thread's last error code
(`GetLastError()`, consulted only on failure).  The function fails with
`SystemClassCreationFailed` exactly when the token is 0 and the error is
not `ERROR_CLASS_ALREADY_EXISTS`. -/
def build_sysclass (class_token : Nat) (last_error : Nat) :
    Except SystemError Unit :=
  if class_token = 0 ∧ ¬last_error = ERROR_CLASS_ALREADY_EXISTS then
    Except.error SystemError.SystemClassCreationFailed
  else Except.ok ()

/-! ### Spec-side tables and concrete environments -/

/-- The documented button table of the spec: the clicked code maps to the
button-click event, the double-click code to the button-double-click
event. -/
def buttonCommandTable : List (Nat × Event) :=
  [(BN_CLICKED, Event.OnButtonClick), (BN_DBLCLK, Event.OnButtonDoubleClick)]

/-- The documented edit table of the spec. -/
def editCommandTable : List (Nat × Event) :=
  [(EN_CHANGE, Event.OnTextInput)]

/-- The documented combo-box table of the spec. -/
def comboCommandTable : List (Nat × Event) :=
  [(CBN_CLOSEUP, Event.OnComboBoxClosed),
   (CBN_DROPDOWN, Event.OnComboBoxDropdown),
   (CBN_SELCHANGE, Event.OnComboxBoxSelection)]

/-- The documented list-box table of the spec. -/
def listboxCommandTable : List (Nat × Event) :=
  [(LBN_SELCHANGE, Event.OnListBoxSelect),
   (LBN_DBLCLK, Event.OnListBoxDoubleClick)]

/-- A concrete environment: every window reports an empty class name and
no bitmap content; all pointer reads yield 0. -/
def trivialEnv : Env :=
  { className := fun _ => "", hasBitmap := fun _ => false,
    menuItemId := fun _ _ => 0, nmhdrCode := fun _ => 0,
    nmhdrFrom := fun _ => 0, nmhdrIdFrom := fun _ => 0 }

/-- `trivialEnv`, except every control currently holds bitmap content. -/
def bitmapEnv : Env :=
  { trivialEnv with hasBitmap := fun _ => true }

/-! ### Helper lemmas -/

set_option maxHeartbeats 1000000 in
theorem subtree_calls_cases (env : Env) (hwnd msg w l : Nat) :
    (subtree_calls env hwnd msg w l).length ≤ 1 ∨
    (msg = NWG_TRAY ∧ LOWORD l = WM_RBUTTONUP ∧
      (subtree_calls env hwnd msg w l).length = 2) := by
  simp only [subtree_calls, handle_tooltip_callback, handle_default_notify_callback]
  by_cases h1 : msg = WM_NOTIFY
  · rw [if_pos h1]; left; split_ifs <;> simp
  rw [if_neg h1]
  by_cases h2 : msg = WM_MENUCOMMAND
  · rw [if_pos h2]; left; simp
  rw [if_neg h2]
  by_cases h3 : msg = WM_COMMAND
  · rw [if_pos h3]; left; split_ifs <;> simp
  rw [if_neg h3]
  by_cases h4 : msg = WM_CONTEXTMENU
  · rw [if_pos h4]; left; simp
  rw [if_neg h4]
  by_cases h5 : msg = NWG_TRAY
  · rw [if_pos h5]
    by_cases hm : LOWORD l = WM_RBUTTONUP
    · right
      refine ⟨h5, hm, ?_⟩
      rw [hm]
      norm_num [WM_RBUTTONUP, NIN_BALLOONSHOW, NIN_BALLOONHIDE,
        NIN_BALLOONTIMEOUT, NIN_BALLOONUSERCLICK, WM_LBUTTONUP, WM_LBUTTONDOWN]
    · left
      split_ifs <;> simp
  rw [if_neg h5]
  left
  by_cases h6 : msg = WM_TIMER
  · rw [if_pos h6]; simp
  rw [if_neg h6]
  by_cases h7 : msg = WM_SIZE
  · rw [if_pos h7]; simp
  rw [if_neg h7]
  by_cases h8 : msg = WM_MOVE
  · rw [if_pos h8]; simp
  rw [if_neg h8]
  by_cases h9 : msg = WM_HSCROLL
  · rw [if_pos h9]; simp
  rw [if_neg h9]
  by_cases h10 : msg = WM_VSCROLL
  · rw [if_pos h10]; simp
  rw [if_neg h10]
  by_cases h11 : msg = WM_MOUSEMOVE
  · rw [if_pos h11]; simp
  rw [if_neg h11]
  by_cases h12 : msg = WM_LBUTTONUP
  · rw [if_pos h12]; simp
  rw [if_neg h12]
  by_cases h13 : msg = WM_LBUTTONDOWN
  · rw [if_pos h13]; simp
  rw [if_neg h13]
  by_cases h14 : msg = WM_RBUTTONUP
  · rw [if_pos h14]; simp
  rw [if_neg h14]
  by_cases h15 : msg = WM_RBUTTONDOWN
  · rw [if_pos h15]; simp
  rw [if_neg h15]
  by_cases h16 : msg = WM_PAINT
  · rw [if_pos h16]; simp
  rw [if_neg h16]
  by_cases h17 : msg = NOTICE_MESSAGE
  · rw [if_pos h17]; simp
  rw [if_neg h17]
  by_cases h18 : msg = NWG_INIT
  · rw [if_pos h18]; simp
  rw [if_neg h18]
  by_cases h19 : msg = WM_CLOSE
  · rw [if_pos h19]; simp
  rw [if_neg h19]
  simp

theorem foldl_iter_children (cs : List Nat) (st : HookState) :
    (cs.foldl iter_children_window st).rc = st.rc + cs.length ∧
    (cs.foldl iter_children_window st).hooks = st.hooks ++ cs := by
  induction cs generalizing st with
  | nil => simp
  | cons c cs ih =>
    simp only [List.foldl_cons]
    obtain ⟨h1, h2⟩ := ih (iter_children_window st c)
    refine ⟨?_, ?_⟩
    · rw [h1]; simp [iter_children_window]; omega
    · rw [h2]; simp [iter_children_window]

theorem noticeIdAt_closed (k : Nat) : noticeIdAt k = (1 + k) % 2 ^ 32 := by
  induction k with
  | zero => simp [noticeIdAt, ID_INIT]
  | succ k ih =>
    rw [noticeIdAt, Function.iterate_succ_apply']
    rw [show Nat.iterate (fun s => (build_notice s 0).2) k ID_INIT = noticeIdAt k from rfl, ih]
    simp only [build_notice]
    rw [Nat.mod_add_mod]
    omega

theorem timerIdAt_closed (k : Nat) : timerIdAt k = (1 + k) % 2 ^ 32 := by
  induction k with
  | zero => simp [timerIdAt, ID_INIT]
  | succ k ih =>
    rw [timerIdAt, Function.iterate_succ_apply']
    rw [show Nat.iterate (fun s => (build_timer s 0 0 true).2) k ID_INIT = timerIdAt k from rfl, ih]
    simp only [build_timer]
    rw [Nat.mod_add_mod]
    omega

/-! ### Claim theorems -/

/-- C1 (amended): in Subtree mode every message processed by an installed
hook results in exactly one forwarded call to the default subclass
handler, which the registered callback can never suppress; the callback
is invoked at most twice per message — at most once unless the message is
the toolkit-private tray message, and twice only for the tray
right-button-up sub-event. -/
theorem process_events_forward_once_calls_bounded
    (env : Env) (hwnd msg w l : Nat) :
    (process_events env hwnd msg w l).forwardedCalls = 1 ∧
    (process_events env hwnd msg w l).calls.length ≤ 2 ∧
    (¬msg = NWG_TRAY → (process_events env hwnd msg w l).calls.length ≤ 1) ∧
    (2 ≤ (process_events env hwnd msg w l).calls.length →
      msg = NWG_TRAY ∧ LOWORD l = WM_RBUTTONUP) := by
  have hc := subtree_calls_cases env hwnd msg w l
  have hcalls : (process_events env hwnd msg w l).calls
      = subtree_calls env hwnd msg w l := rfl
  refine ⟨rfl, ?_, ?_, ?_⟩
  · rw [hcalls]
    rcases hc with h | ⟨_, _, h3⟩ <;> omega
  · intro hm
    rw [hcalls]
    rcases hc with h | ⟨hencode, _, _⟩
    · exact h
    · exact absurd hencode hm
  · rw [hcalls]
    intro h2
    rcases hc with h | ⟨hencode, hlow, _⟩
    · omega
    · exact ⟨hencode, hlow⟩

/-- C1 witness: concrete instantiation of the amended claim. -/
theorem process_events_forward_once_calls_bounded_witness :
    (process_events trivialEnv 1 WM_PAINT 0 0).forwardedCalls = 1 ∧
    (process_events trivialEnv 1 WM_PAINT 0 0).calls.length ≤ 1 :=
  ⟨(process_events_forward_once_calls_bounded trivialEnv 1 WM_PAINT 0 0).1,
   (process_events_forward_once_calls_bounded trivialEnv 1 WM_PAINT 0 0).2.2.1
     (by decide)⟩

/-- C1 counterexample: the claim "exactly one callback invocation per
message" is false on the code — an unrecognized message (code 0) results
in zero callback invocations, and the tray right-button-up sub-event in
two, while both still forward to the default handler exactly once. -/
theorem process_events_single_invocation_refuted :
    (process_events trivialEnv 1 0 0 0).calls.length = 0 ∧
    ¬(process_events trivialEnv 1 0 0 0).calls.length = 1 ∧
    (process_events trivialEnv 1 NWG_TRAY 0 WM_RBUTTONUP).calls.length = 2 ∧
    ¬(process_events trivialEnv 1 NWG_TRAY 0 WM_RBUTTONUP).calls.length = 1 ∧
    (process_events trivialEnv 1 0 0 0).forwardedCalls = 1 ∧
    (process_events trivialEnv 1 NWG_TRAY 0 WM_RBUTTONUP).forwardedCalls = 1 := by
  decide

/-- C2: installing a Subtree interceptor on a root with `k` existing
children installs exactly `k+1` hooks sharing one callback, whose strong
count is `k+1` immediately after install (incremented once per hook) —
but the dispatch core contains no release path: destroying every hooked
window (here `k = 1`: root 100, child 200) removes the hooks yet leaves
the count at `k+1 = 2`, never 0, so the callback is leaked, contrary to
the claimed ownership discipline. -/
theorem bind_event_handler_refcount_leak (root : Nat) (children : List Nat) :
    (bind_event_handler root children).rc = children.length + 1 ∧
    (bind_event_handler root children).hooks = children ++ [root] ∧
    (destroy_window (destroy_window (bind_event_handler 100 [200]) 200) 100).hooks
      = [] ∧
    (destroy_window (destroy_window (bind_event_handler 100 [200]) 200) 100).rc
      = 2 := by
  obtain ⟨h1, h2⟩ := foldl_iter_children children { rc := 1, hooks := [] }
  refine ⟨?_, ?_, by decide, by decide⟩
  · show (children.foldl iter_children_window { rc := 1, hooks := [] }).rc
      = children.length + 1
    rw [h1]
    show 1 + children.length = children.length + 1
    omega
  · show (children.foldl iter_children_window { rc := 1, hooks := [] }).hooks
      ++ [root] = children ++ [root]
    rw [h2]
    simp

/-- C3: the Single-Window Raw Interceptor invokes the callback exactly
once with `(raw_handle, message_code, w_param, l_param)`; if it returns a
result that result goes back to the native dispatcher and the default
handler is skipped, otherwise the default subclass handler runs — exactly
one of the two branches. -/
theorem process_raw_events_exactly_one_branch
    (cb : Nat → Nat → Nat → Nat → Option Int)
    (defp : Nat → Nat → Nat → Nat → Int) (hwnd msg w l : Nat) :
    (process_raw_events cb defp hwnd msg w l).calls = [(hwnd, msg, w, l)] ∧
    ((∃ r, cb hwnd msg w l = some r ∧
        (process_raw_events cb defp hwnd msg w l).result = r ∧
        (process_raw_events cb defp hwnd msg w l).ranDefault = false) ∨
      (cb hwnd msg w l = none ∧
        (process_raw_events cb defp hwnd msg w l).ranDefault = true ∧
        (process_raw_events cb defp hwnd msg w l).result = defp hwnd msg w l)) := by
  cases hcb : cb hwnd msg w l with
  | none => simp [process_raw_events, hcb]
  | some r => simp [process_raw_events, hcb]

/-- C4: every sub-code present in the button, edit, combo-box and
list-box tables classifies to its documented event, and every sub-code
absent from a class's table classifies to `Event.Unknown`. -/
theorem classifier_tables_correct (m : Nat) :
    (∀ p ∈ buttonCommandTable, button_commands p.1 = p.2) ∧
    (m ∉ buttonCommandTable.map Prod.fst → button_commands m = Event.Unknown) ∧
    (∀ p ∈ comboCommandTable, combo_commands p.1 = p.2) ∧
    (m ∉ comboCommandTable.map Prod.fst → combo_commands m = Event.Unknown) ∧
    (∀ p ∈ editCommandTable, edit_commands p.1 = p.2) ∧
    (m ∉ editCommandTable.map Prod.fst → edit_commands m = Event.Unknown) ∧
    (∀ p ∈ listboxCommandTable, listbox_commands p.1 = p.2) ∧
    (m ∉ listboxCommandTable.map Prod.fst → listbox_commands m = Event.Unknown) := by
  refine ⟨by decide, ?_, by decide, ?_, by decide, ?_, by decide, ?_⟩ <;>
    · intro hmem
      simp only [buttonCommandTable, comboCommandTable, editCommandTable,
        listboxCommandTable, List.map_cons, List.map_nil, List.mem_cons,
        List.mem_singleton, not_or] at hmem
      simp_all [button_commands, combo_commands, edit_commands, listbox_commands]

/-- C4 witness: concrete instantiations of the table and the default. -/
theorem classifier_tables_correct_witness :
    button_commands BN_CLICKED = Event.OnButtonClick ∧
    button_commands 999 = Event.Unknown ∧
    combo_commands CBN_DROPDOWN = Event.OnComboBoxDropdown ∧
    combo_commands 999 = Event.Unknown :=
  ⟨(classifier_tables_correct 999).1 (BN_CLICKED, Event.OnButtonClick) (by decide),
   (classifier_tables_correct 999).2.1 (by decide),
   (classifier_tables_correct 999).2.2.1 (CBN_DROPDOWN, Event.OnComboBoxDropdown)
     (by decide),
   (classifier_tables_correct 999).2.2.2.1 (by decide)⟩

/-- C5: classifying the clicked (and double-clicked) sub-code of a
"Static"-class control queries the control's live bitmap content: with
bitmap content it yields the image-frame events, without it the label
events, for the identical sub-code and control. -/
theorem static_commands_live_bitmap (env : Env) (h : Nat) :
    (env.hasBitmap h = true →
      static_commands env h STN_CLICKED = Event.OnImageFrameClick ∧
      static_commands env h STN_DBLCLK = Event.OnImageFrameDoubleClick) ∧
    (env.hasBitmap h = false →
      static_commands env h STN_CLICKED = Event.OnLabelClick ∧
      static_commands env h STN_DBLCLK = Event.OnLabelDoubleClick) := by
  constructor <;> intro hb <;>
    simp [static_commands, hb, STN_CLICKED, STN_DBLCLK]

/-- C5 witness: the same control and sub-code classified under the two
bitmap states. -/
theorem static_commands_live_bitmap_witness :
    static_commands bitmapEnv 5 STN_CLICKED = Event.OnImageFrameClick ∧
    static_commands trivialEnv 5 STN_CLICKED = Event.OnLabelClick :=
  ⟨((static_commands_live_bitmap bitmapEnv 5).1 rfl).1,
   ((static_commands_live_bitmap trivialEnv 5).2 rfl).1⟩

/-- C6: window class registration is idempotent — a registration whose
native call succeeds returns Ok, a failed native call whose last error is
`ERROR_CLASS_ALREADY_EXISTS` (the second registration of an existing
class) also returns Ok, and any other failure surfaces
`SystemClassCreationFailed`. -/
theorem build_sysclass_idempotent (t e : Nat) :
    (¬t = 0 → build_sysclass t e = Except.ok ()) ∧
    build_sysclass 0 ERROR_CLASS_ALREADY_EXISTS = Except.ok () ∧
    (¬e = ERROR_CLASS_ALREADY_EXISTS →
      build_sysclass 0 e = Except.error SystemError.SystemClassCreationFailed) := by
  refine ⟨fun ht => ?_, ?_, fun he => ?_⟩
  · simp [build_sysclass, ht]
  · simp [build_sysclass]
  · simp [build_sysclass, he]

/-- C6 witness: registering twice — first call succeeds natively, second
fails natively with `ERROR_CLASS_ALREADY_EXISTS` — returns Ok both
times; a different error code is surfaced as the class-creation error. -/
theorem build_sysclass_idempotent_witness :
    build_sysclass 7 0 = Except.ok () ∧
    build_sysclass 0 ERROR_CLASS_ALREADY_EXISTS = Except.ok () ∧
    build_sysclass 0 5 = Except.error SystemError.SystemClassCreationFailed :=
  ⟨(build_sysclass_idempotent 7 0).1 (by decide),
   (build_sysclass_idempotent 7 0).2.1,
   (build_sysclass_idempotent 0 5).2.2 (by decide)⟩

/-- C7: installing a Single-Window Raw Interceptor succeeds exactly on a
plain window handle and fails (panics, modelled by `none`) on the
unbound state and on timer, notice, menu-item and tray handles. -/
theorem bind_raw_event_handler_requires_hwnd (v p n id : Nat) :
    bind_raw_event_handler (ControlHandle.Hwnd v) id ()
      = some { hwnd := v, id := id, callback := () } ∧
    bind_raw_event_handler ControlHandle.NoHandle id () = none ∧
    bind_raw_event_handler (ControlHandle.Timer p n) id () = none ∧
    bind_raw_event_handler (ControlHandle.Notice p n) id () = none ∧
    bind_raw_event_handler (ControlHandle.MenuItem p n) id () = none ∧
    bind_raw_event_handler (ControlHandle.SystemTray p) id () = none :=
  ⟨rfl, rfl, rfl, rfl, rfl, rfl⟩

/-- C8 (amended): each identifier counter starts at 1, is incremented
(modulo `2^32`, a `u32`) on every allocation and never reset; ids are
strictly increasing — hence never repeat — as long as the run performs at
most `2^32 - 1` allocations. -/
theorem id_allocation_monotone_before_wrap (i j : Nat)
    (hij : i < j) (hj : j + 1 < 2 ^ 32) :
    noticeIdAt 0 = 1 ∧ timerIdAt 0 = 1 ∧
    noticeIdAt i < noticeIdAt j ∧ timerIdAt i < timerIdAt j := by
  have hni : noticeIdAt i = 1 + i := by
    rw [noticeIdAt_closed]; exact Nat.mod_eq_of_lt (by omega)
  have hnj : noticeIdAt j = 1 + j := by
    rw [noticeIdAt_closed]; exact Nat.mod_eq_of_lt (by omega)
  have hti : timerIdAt i = 1 + i := by
    rw [timerIdAt_closed]; exact Nat.mod_eq_of_lt (by omega)
  have htj : timerIdAt j = 1 + j := by
    rw [timerIdAt_closed]; exact Nat.mod_eq_of_lt (by omega)
  refine ⟨rfl, rfl, ?_, ?_⟩ <;> omega

/-- C8 witness: the first two allocations yield increasing ids. -/
theorem id_allocation_monotone_before_wrap_witness :
    noticeIdAt 0 < noticeIdAt 1 ∧ timerIdAt 0 < timerIdAt 1 :=
  ⟨(id_allocation_monotone_before_wrap 0 1 (by decide) (by norm_num)).2.2.1,
   (id_allocation_monotone_before_wrap 0 1 (by decide) (by norm_num)).2.2.2⟩

/-- C8 counterexample: the `u32` counter wraps — allocation number
`2^32 - 2` (counting from 0, in a run that only allocates) yields id
`2^32 - 1`, the immediately following allocation yields id 0, which is
not an increase, and allocation number `2^32` repeats the very first
id 1. -/
theorem id_allocation_wraparound_refuted :
    noticeIdAt 0 = 1 ∧
    noticeIdAt (2 ^ 32 - 2) = 2 ^ 32 - 1 ∧
    noticeIdAt (2 ^ 32 - 1) = 0 ∧
    noticeIdAt (2 ^ 32) = 1 ∧
    ¬noticeIdAt (2 ^ 32 - 2) < noticeIdAt (2 ^ 32 - 1) := by
  refine ⟨?_, ?_, ?_, ?_, ?_⟩ <;> simp [noticeIdAt_closed]

/-- C9: the toolkit-private tray message with the `WM_RBUTTONUP`
sub-event dispatches the callback twice — right-mouse-press-up then
context-menu — while an ordinary `WM_RBUTTONUP` message dispatches it
exactly once, with only the right-mouse-press-up event. -/
theorem tray_rbuttonup_double_dispatch (env : Env) (hwnd w l : Nat)
    (hl : LOWORD l = WM_RBUTTONUP) :
    (process_events env hwnd NWG_TRAY w l).calls =
      [(Event.MousePress MousePressEvent.MousePressRightUp, NO_DATA,
          ControlHandle.SystemTray hwnd),
        (Event.OnContextMenu, NO_DATA, ControlHandle.SystemTray hwnd)] ∧
    (process_events env hwnd WM_RBUTTONUP w l).calls =
      [(Event.MousePress MousePressEvent.MousePressRightUp, NO_DATA,
          ControlHandle.Hwnd hwnd)] := by
  constructor <;>
    · simp only [process_events, subtree_calls, hl]
      norm_num [NWG_TRAY, WM_NOTIFY, WM_MENUCOMMAND, WM_COMMAND, WM_CONTEXTMENU,
        WM_TIMER, WM_SIZE, WM_MOVE, WM_HSCROLL, WM_VSCROLL, WM_MOUSEMOVE,
        WM_LBUTTONUP, WM_LBUTTONDOWN, WM_RBUTTONUP, WM_RBUTTONDOWN, WM_PAINT,
        NOTICE_MESSAGE, NWG_INIT, WM_CLOSE, NIN_BALLOONSHOW, NIN_BALLOONHIDE,
        NIN_BALLOONTIMEOUT, NIN_BALLOONUSERCLICK]

/-- C9 witness: concrete tray and non-tray right-button-up messages. -/
theorem tray_rbuttonup_double_dispatch_witness :
    (process_events trivialEnv 1 NWG_TRAY 0 WM_RBUTTONUP).calls =
      [(Event.MousePress MousePressEvent.MousePressRightUp, NO_DATA,
          ControlHandle.SystemTray 1),
        (Event.OnContextMenu, NO_DATA, ControlHandle.SystemTray 1)] :=
  (tray_rbuttonup_double_dispatch trivialEnv 1 0 WM_RBUTTONUP (by decide)).1

/-- C10: a `WM_COMMAND` message from a child whose registered class is
none of "Button", "Edit", "ComboBox", "Static", "ListBox" invokes the
callback zero times; the message is only forwarded to the default
handler. -/
theorem wm_command_unknown_class_no_dispatch (env : Env) (hwnd w l : Nat)
    (hc : env.className l ∉
      (["Button", "Edit", "ComboBox", "Static", "ListBox"] : List String)) :
    (process_events env hwnd WM_COMMAND w l).calls = [] ∧
    (process_events env hwnd WM_COMMAND w l).forwardedCalls = 1 := by
  simp only [List.mem_cons, List.mem_singleton, not_or] at hc
  obtain ⟨hb, he, hcb, hs, hlb, -⟩ := hc
  refine ⟨?_, rfl⟩
  simp only [process_events, subtree_calls]
  norm_num [WM_COMMAND, WM_NOTIFY, WM_MENUCOMMAND, hb, he, hcb, hs, hlb]

/-- C10 witness: a child registered under an unrecognized class. -/
theorem wm_command_unknown_class_no_dispatch_witness :
    (process_events trivialEnv 1 WM_COMMAND 0 0).calls = [] :=
  (wm_command_unknown_class_no_dispatch trivialEnv 1 0 0 (by decide)).1

end NwgWindow